import Mathlib

/-!
Shallow embedding of the music bot's queue/playback core
(src/models/song.py, src/models/guild_state.py, src/services/queue.py,
src/services/player.py, src/services/extractor.py, src/utils/database.py,
src/cogs/music/commands.py) together with theorems checking the
specification's claims about the next-track algorithm, seek handling,
vote-skip, queue persistence and the volume invariant.

Conventions of the embedding:
* Python floats (volume, timestamps, vote threshold) are modelled as `ℚ`;
  all float operations the claims touch (min/max clamping, subtraction,
  comparison, multiplication by 0.5) are exact at the inputs considered.
* Python `None` becomes `Option.none`; truthiness of a string is
  non-emptiness; truthiness of a list is non-emptiness; a `Song` dataclass
  instance is always truthy.
* The Redis store is a record of the keys this code uses for one guild;
  `connected = false` models the `self.client is None` degraded mode.
* Side-effecting methods become state-passing functions returning
  `result × state`.
-/

namespace MusicBot

/-- Loop mode literal: `'off' | 'song' | 'queue'` (src/models/guild_state.py). -/
inductive LoopMode where
  | off
  | song
  | queue
deriving DecidableEq, Repr

/-- Models `Song` dataclass (src/models/song.py).  `requester` is the opaque
`discord.Member` reference, modelled as a user id. -/
structure Song where
  title : String
  url : String
  webpage_url : String
  duration : Int
  thumbnail : Option String := none
  requester : Option Nat := none
  original_url : Option String := none
  uploader : Option String := none
  view_count : Option Int := none
deriving DecidableEq, Repr

/-- The JSON object produced by `Song.to_dict` (all eight keys always
present; `requester` never serialized). -/
structure SongDict where
  title : String
  url : String
  webpage_url : String
  duration : Int
  thumbnail : Option String
  original_url : Option String
  uploader : Option String
  view_count : Option Int
deriving DecidableEq, Repr

/-- Models `Song.to_dict` (src/models/song.py lines 42-54). -/
def Song.to_dict (s : Song) : SongDict :=
  { title := s.title
    url := s.url
    webpage_url := s.webpage_url
    duration := s.duration
    thumbnail := s.thumbnail
    original_url := s.original_url
    uploader := s.uploader
    view_count := s.view_count }

/-- Models `Song.from_dict` (src/models/song.py lines 56-68): every key is read
back; `requester` is left at its default `None`. -/
def Song.from_dict (d : SongDict) : Song :=
  { title := d.title
    url := d.url
    webpage_url := d.webpage_url
    duration := d.duration
    thumbnail := d.thumbnail
    requester := none
    original_url := d.original_url
    uploader := d.uploader
    view_count := d.view_count }

/-- Models `Song.is_url_valid` (`bool(self.url)`). -/
def Song.is_url_valid (s : Song) : Bool := s.url ≠ ""

/-- Models `GuildState` dataclass (src/models/guild_state.py).  The two
`hasattr`-based lazy-load markers used by `QueueService.get_247_mode` /
`get_autoplay` are modelled as explicit booleans (absent attribute =
`false`). -/
structure GuildState where
  guild_id : Nat
  queue : List Song := []
  current_song : Option Song := none
  loop_mode : LoopMode := .off
  volume : ℚ := 1
  audio_filter : String := "off"
  is_paused : Bool := false
  song_start_time : Option ℚ := none
  is_247_mode : Bool := false
  autoplay_enabled : Bool := false
  now_playing_message_id : Option Nat := none
  vote_skip_users : Finset Nat := ∅
  loaded_247 : Bool := false
  loaded_autoplay : Bool := false
deriving DecidableEq

/-- Models `GuildState(guild_id=guild_id)` with dataclass defaults. -/
def GuildState.init (gid : Nat) : GuildState := { guild_id := gid }

/-- Models `GuildState.add_to_queue`: append, return 1-based position. -/
def GuildState.add_to_queue (st : GuildState) (s : Song) : Nat × GuildState :=
  let st' := { st with queue := st.queue ++ [s] }
  (st'.queue.length, st')

/-- Models `GuildState.remove_from_queue` (lines 43-47): 0-based index; Python
indices are ints, so out-of-range covers negatives too. -/
def GuildState.remove_from_queue (st : GuildState) (index : Int) :
    Option Song × GuildState :=
  if 0 ≤ index ∧ index < st.queue.length then
    let i := index.toNat
    (st.queue.get? i, { st with queue := st.queue.take i ++ st.queue.drop (i + 1) })
  else
    (none, st)

/-- Models `GuildState.get_next_song` (lines 49-65), the loop-mode-aware advance:
```
if not self.queue and self.loop_mode != 'song': return None
if self.loop_mode == 'song' and self.current_song: return self.current_song
if self.loop_mode == 'queue' and self.current_song: self.queue.append(self.current_song)
if self.queue: return self.queue.pop(0)
return None
```
Returns the chosen song together with the mutated state. -/
def GuildState.get_next_song (st : GuildState) : Option Song × GuildState :=
  if st.queue = [] ∧ st.loop_mode ≠ .song then
    (none, st)
  else if st.loop_mode = .song ∧ st.current_song.isSome then
    (st.current_song, st)
  else
    let st1 :=
      if st.loop_mode = .queue ∧ st.current_song.isSome then
        { st with queue := st.queue ++ st.current_song.toList }
      else st
    match st1.queue with
    | [] => (none, st1)
    | s :: rest => (some s, { st1 with queue := rest })

/-- Models `GuildState.clear_queue` (lines 67-70). -/
def GuildState.clear_queue (st : GuildState) : GuildState :=
  { st with queue := [], current_song := none }

/-- Models `GuildState.move_song` (lines 77-83): both 0-based indices must be in
range, else `False` with no mutation. -/
def GuildState.move_song (st : GuildState) (from_pos to_pos : Int) :
    Bool × GuildState :=
  if (0 ≤ from_pos ∧ from_pos < st.queue.length) ∧
      (0 ≤ to_pos ∧ to_pos < st.queue.length) then
    let i := from_pos.toNat
    let removed := st.queue.take i ++ st.queue.drop (i + 1)
    match st.queue.get? i with
    | some s =>
        (true, { st with queue := removed.take to_pos.toNat ++ s :: removed.drop to_pos.toNat })
    | none => (true, st)
  else
    (false, st)

/-- Models `GuildState.reset_vote_skip` (lines 85-87). -/
def GuildState.reset_vote_skip (st : GuildState) : GuildState :=
  { st with vote_skip_users := ∅ }

/-- The per-guild `settings:<guild>` JSON blob (src/utils/database.py).
Each field is `none` when the key is absent; an absent blob and the empty object are
observationally identical, so the blob itself is not optional.
`loop_mode` only ever receives one of the three literals, so it is stored
as `LoopMode`. -/
structure Settings where
  volume : Option ℚ := none
  loop_mode : Option LoopMode := none
  filter : Option String := none
  is_247_mode : Option Bool := none
  autoplay_enabled : Option Bool := none
  request_channel_id : Option (Option Nat) := none
deriving DecidableEq

/-- The slice of Redis this code uses for one guild (src/utils/database.py).
`connected = false` models `self.client is None` after a failed connect.
`queue` is the `queue:<guild>` key (`none` = key absent), `playlists` the
`playlists:<guild>` JSON object as an association list. -/
structure RedisManager where
  connected : Bool := true
  queue : Option (List SongDict) := none
  settings : Settings := {}
  playlists : List (String × List SongDict) := []
deriving DecidableEq

namespace RedisManager

/-- Models `get_volume`: `settings.get('volume', 1.0)`; a disconnected client
makes `get_settings` return the empty object. -/
def get_volume (db : RedisManager) : ℚ :=
  (if db.connected then db.settings.volume else none).getD 1

/-- Models `set_volume` via `set_setting` (no-op when disconnected). -/
def set_volume (db : RedisManager) (v : ℚ) : RedisManager :=
  if db.connected then { db with settings := { db.settings with volume := some v } } else db

/-- Models `get_loop_mode`: `settings.get('loop_mode', 'off')`. -/
def get_loop_mode (db : RedisManager) : LoopMode :=
  (if db.connected then db.settings.loop_mode else none).getD .off

/-- Models `set_loop_mode` via `set_setting`. -/
def set_loop_mode (db : RedisManager) (m : LoopMode) : RedisManager :=
  if db.connected then { db with settings := { db.settings with loop_mode := some m } } else db

/-- Models `get_filter`: `settings.get('filter', 'off')`. -/
def get_filter (db : RedisManager) : String :=
  (if db.connected then db.settings.filter else none).getD "off"

/-- Models `set_filter` via `set_setting`. -/
def set_filter (db : RedisManager) (f : String) : RedisManager :=
  if db.connected then { db with settings := { db.settings with filter := some f } } else db

/-- Models `get_247_mode`: `settings.get('is_247_mode', False)`. -/
def get_247_mode (db : RedisManager) : Bool :=
  (if db.connected then db.settings.is_247_mode else none).getD false

/-- Models `set_247_mode` via `set_setting`. -/
def set_247_mode (db : RedisManager) (b : Bool) : RedisManager :=
  if db.connected then { db with settings := { db.settings with is_247_mode := some b } } else db

/-- Models `get_autoplay`: `settings.get('autoplay_enabled', False)`. -/
def get_autoplay (db : RedisManager) : Bool :=
  (if db.connected then db.settings.autoplay_enabled else none).getD false

/-- Models `set_autoplay` via `set_setting`. -/
def set_autoplay (db : RedisManager) (b : Bool) : RedisManager :=
  if db.connected then
    { db with settings := { db.settings with autoplay_enabled := some b } }
  else db

/-- Models `get_request_channel`: `settings.get('request_channel_id')`. -/
def get_request_channel (db : RedisManager) : Option Nat :=
  ((if db.connected then db.settings.request_channel_id else none).getD none)

/-- Models `set_request_channel` via `set_setting`. -/
def set_request_channel (db : RedisManager) (c : Option Nat) : RedisManager :=
  if db.connected then
    { db with settings := { db.settings with request_channel_id := some c } }
  else db

/-- Models `save_queue`: stores the serialized queue under the guild's
queue key. -/
def save_queue (db : RedisManager) (q : List SongDict) : RedisManager :=
  if db.connected then { db with queue := some q } else db

/-- Models `load_queue`: `[]` when disconnected or key absent (a stored `"[]"`
parses to `[]` as well). -/
def load_queue (db : RedisManager) : List SongDict :=
  if db.connected then db.queue.getD [] else []

/-- Models `clear_queue`: deletes the `queue:<guild>` key. -/
def clear_queue (db : RedisManager) : RedisManager :=
  if db.connected then { db with queue := none } else db

/-- Models `get_all_playlists`: the `playlists:<guild>` JSON object, the empty object when
disconnected or absent. -/
def get_all_playlists (db : RedisManager) : List (String × List SongDict) :=
  if db.connected then db.playlists else []

/-- Dict assignment `playlists[name] = songs` on an association list. -/
def upsert (pl : List (String × List SongDict)) (name : String)
    (songs : List SongDict) : List (String × List SongDict) :=
  if pl.any (fun p => p.1 = name) then
    pl.map (fun p => if p.1 = name then (name, songs) else p)
  else
    pl ++ [(name, songs)]

/-- Models `save_playlist`: read-modify-write of the playlists object. -/
def save_playlist (db : RedisManager) (name : String) (songs : List SongDict) :
    RedisManager :=
  if db.connected then
    { db with playlists := upsert db.get_all_playlists name songs }
  else db

/-- Models `load_playlist`: `playlists.get(name)`. -/
def load_playlist (db : RedisManager) (name : String) : Option (List SongDict) :=
  (db.get_all_playlists.find? (fun p => p.1 = name)).map Prod.snd

/-- Models `delete_playlist`: remove the key if present, reporting success. -/
def delete_playlist (db : RedisManager) (name : String) : Bool × RedisManager :=
  if db.connected then
    if db.get_all_playlists.any (fun p => p.1 = name) then
      (true, { db with playlists := db.playlists.filter (fun p => p.1 ≠ name) })
    else (false, db)
  else (false, db)

/-- Models `list_playlists`: keys of the playlists object. -/
def list_playlists (db : RedisManager) : List String :=
  db.get_all_playlists.map Prod.fst

end RedisManager

/-- One guild's slice of `QueueService` (src/services/queue.py): the
`self._states` entry for that guild (`mem`, `none` = not yet loaded) plus
the Redis store.  Distinct guilds never interact, so a single-guild system
is a faithful projection. -/
structure QueueService where
  mem : Option GuildState := none
  db : RedisManager := {}
deriving DecidableEq

namespace QueueService

/-- Models `get_state` (lines 26-47, inlining `_load_from_redis`): create the
default state on first access, then load the queue (only when the loaded
list is non-empty — `if queue_data:`), volume, loop mode and filter from
Redis. -/
def get_state (gid : Nat) (sys : QueueService) : GuildState × QueueService :=
  match sys.mem with
  | some st => (st, sys)
  | none =>
      let st0 := GuildState.init gid
      let qd := sys.db.load_queue
      let st1 := if qd ≠ [] then { st0 with queue := qd.map Song.from_dict } else st0
      let st2 := { st1 with
        volume := sys.db.get_volume
        loop_mode := sys.db.get_loop_mode
        audio_filter := sys.db.get_filter }
      (st2, { sys with mem := some st2 })

/-- Models `_save_queue_to_redis` (lines 49-54). -/
def save_queue_to_redis (sys : QueueService) : QueueService :=
  match sys.mem with
  | some st => { sys with db := sys.db.save_queue (st.queue.map Song.to_dict) }
  | none => sys

/-- Models `add` (lines 56-61). -/
def add (gid : Nat) (song : Song) (sys : QueueService) : Nat × QueueService :=
  let (st, sys1) := get_state gid sys
  let (pos, st') := st.add_to_queue song
  (pos, save_queue_to_redis { sys1 with mem := some st' })

/-- Models `add_many` (lines 63-69). -/
def add_many (gid : Nat) (songs : List Song) (sys : QueueService) :
    Nat × QueueService :=
  let (st, sys1) := get_state gid sys
  let st' := { st with queue := st.queue ++ songs }
  (songs.length, save_queue_to_redis { sys1 with mem := some st' })

/-- Models `remove` (lines 71-77): persists only when a song was removed. -/
def remove (gid : Nat) (index : Int) (sys : QueueService) :
    Option Song × QueueService :=
  let (st, sys1) := get_state gid sys
  let (song?, st') := st.remove_from_queue index
  let sys2 := { sys1 with mem := some st' }
  match song? with
  | some s => (some s, save_queue_to_redis sys2)
  | none => (none, sys2)

/-- Models `clear` (lines 79-83). -/
def clear (gid : Nat) (sys : QueueService) : QueueService :=
  let (st, sys1) := get_state gid sys
  { sys1 with mem := some st.clear_queue, db := sys1.db.clear_queue }

/-- Models `shuffle` (lines 85-89); `random.shuffle` is modelled by an arbitrary
reordering oracle applied to `pending`. -/
def shuffle (gid : Nat) (perm : List Song → List Song) (sys : QueueService) :
    QueueService :=
  let (st, sys1) := get_state gid sys
  save_queue_to_redis { sys1 with mem := some { st with queue := perm st.queue } }

/-- Models `move` (lines 91-97): persists only on success. -/
def move (gid : Nat) (from_pos to_pos : Int) (sys : QueueService) :
    Bool × QueueService :=
  let (st, sys1) := get_state gid sys
  let (ok, st') := st.move_song from_pos to_pos
  let sys2 := { sys1 with mem := some st' }
  if ok then (true, save_queue_to_redis sys2) else (false, sys2)

/-- Models `get_next` (lines 99-106): `current_song` is overwritten and the queue
persisted only when a song came back. -/
def get_next (gid : Nat) (sys : QueueService) : Option Song × QueueService :=
  let (st, sys1) := get_state gid sys
  let (song?, st') := st.get_next_song
  let sys2 := { sys1 with mem := some st' }
  match song? with
  | some s =>
      (some s, save_queue_to_redis { sys2 with mem := some { st' with current_song := some s } })
  | none => (none, sys2)

/-- Models `get_current` (lines 108-111). -/
def get_current (gid : Nat) (sys : QueueService) : Option Song × QueueService :=
  let (st, sys1) := get_state gid sys
  (st.current_song, sys1)

/-- Models `set_current` (lines 113-116). -/
def set_current (gid : Nat) (song? : Option Song) (sys : QueueService) :
    QueueService :=
  let (st, sys1) := get_state gid sys
  { sys1 with mem := some { st with current_song := song? } }

/-- Models `get_queue` (lines 118-120). -/
def get_queue (gid : Nat) (sys : QueueService) : List Song × QueueService :=
  let (st, sys1) := get_state gid sys
  (st.queue, sys1)

/-- Models `set_volume` (lines 124-128): clamps to `[0, 1]` via
`max(0.0, min(1.0, volume))` and persists the clamped value. -/
def set_volume (gid : Nat) (volume : ℚ) (sys : QueueService) : QueueService :=
  let (st, sys1) := get_state gid sys
  let st' := { st with volume := max 0 (min 1 volume) }
  { sys1 with mem := some st', db := sys1.db.set_volume st'.volume }

/-- Models `get_volume` (lines 130-132). -/
def get_volume (gid : Nat) (sys : QueueService) : ℚ × QueueService :=
  let (st, sys1) := get_state gid sys
  (st.volume, sys1)

/-- Models `set_loop_mode` (lines 134-138). -/
def set_loop_mode (gid : Nat) (mode : LoopMode) (sys : QueueService) :
    QueueService :=
  let (st, sys1) := get_state gid sys
  { sys1 with mem := some { st with loop_mode := mode },
              db := sys1.db.set_loop_mode mode }

/-- Models `cycle_loop_mode` (lines 140-147): off → song → queue → off. -/
def cycle_loop_mode (gid : Nat) (sys : QueueService) : LoopMode × QueueService :=
  let (st, sys1) := get_state gid sys
  let new_mode : LoopMode :=
    match st.loop_mode with
    | .off => .song
    | .song => .queue
    | .queue => .off
  (new_mode, set_loop_mode gid new_mode sys1)

/-- Models `get_loop_mode` (lines 149-151). -/
def get_loop_mode (gid : Nat) (sys : QueueService) : LoopMode × QueueService :=
  let (st, sys1) := get_state gid sys
  (st.loop_mode, sys1)

/-- Models `set_filter` (lines 153-157). -/
def set_filter (gid : Nat) (filter_name : String) (sys : QueueService) :
    QueueService :=
  let (st, sys1) := get_state gid sys
  { sys1 with mem := some { st with audio_filter := filter_name },
              db := sys1.db.set_filter filter_name }

/-- Models `get_filter` (lines 159-161). -/
def get_filter (gid : Nat) (sys : QueueService) : String × QueueService :=
  let (st, sys1) := get_state gid sys
  (st.audio_filter, sys1)

/-- Models `add_skip_vote` (lines 165-171): `False` for a duplicate voter, else
insert and `True`. -/
def add_skip_vote (gid : Nat) (user_id : Nat) (sys : QueueService) :
    Bool × QueueService :=
  let (st, sys1) := get_state gid sys
  if user_id ∈ st.vote_skip_users then
    (false, sys1)
  else
    (true, { sys1 with mem := some { st with vote_skip_users := insert user_id st.vote_skip_users } })

/-- Models `get_skip_votes` (lines 173-175). -/
def get_skip_votes (gid : Nat) (sys : QueueService) : Nat × QueueService :=
  let (st, sys1) := get_state gid sys
  (st.vote_skip_users.card, sys1)

/-- Models `reset_skip_votes` (lines 177-179). -/
def reset_skip_votes (gid : Nat) (sys : QueueService) : QueueService :=
  let (st, sys1) := get_state gid sys
  { sys1 with mem := some st.reset_vote_skip }

/-- Models `set_song_start_time` (lines 183-185). -/
def set_song_start_time (gid : Nat) (timestamp : ℚ) (sys : QueueService) :
    QueueService :=
  let (st, sys1) := get_state gid sys
  { sys1 with mem := some { st with song_start_time := some timestamp } }

/-- Models `get_song_start_time` (lines 187-189). -/
def get_song_start_time (gid : Nat) (sys : QueueService) :
    Option ℚ × QueueService :=
  let (st, sys1) := get_state gid sys
  (st.song_start_time, sys1)

/-- Models `set_now_playing_message` (lines 193-195). -/
def set_now_playing_message (gid : Nat) (message_id : Nat) (sys : QueueService) :
    QueueService :=
  let (st, sys1) := get_state gid sys
  { sys1 with mem := some { st with now_playing_message_id := some message_id } }

/-- Models `get_now_playing_message` (lines 197-199). -/
def get_now_playing_message (gid : Nat) (sys : QueueService) :
    Option Nat × QueueService :=
  let (st, sys1) := get_state gid sys
  (st.now_playing_message_id, sys1)

/-- Models `clear_now_playing_message` (lines 201-203). -/
def clear_now_playing_message (gid : Nat) (sys : QueueService) : QueueService :=
  let (st, sys1) := get_state gid sys
  { sys1 with mem := some { st with now_playing_message_id := none } }

/-- Models `cleanup_guild` (lines 207-211): drop the in-memory state and the
persisted queue (settings survive). -/
def cleanup_guild (gid : Nat) (sys : QueueService) : QueueService :=
  let sys1 := if (sys.mem).isSome then { sys with mem := none } else sys
  { sys1 with db := sys1.db.clear_queue }

/-- Models `set_247_mode` (lines 215-219). -/
def set_247_mode (gid : Nat) (enabled : Bool) (sys : QueueService) :
    QueueService :=
  let (st, sys1) := get_state gid sys
  { sys1 with mem := some { st with is_247_mode := enabled },
              db := sys1.db.set_247_mode enabled }

/-- Models `get_247_mode` (lines 221-227): lazily pulls the flag from Redis once
(the `hasattr` marker). -/
def get_247_mode (gid : Nat) (sys : QueueService) : Bool × QueueService :=
  let (st, sys1) := get_state gid sys
  if st.loaded_247 then (st.is_247_mode, sys1)
  else
    let st' := { st with is_247_mode := sys1.db.get_247_mode, loaded_247 := true }
    (st'.is_247_mode, { sys1 with mem := some st' })

/-- Models `set_autoplay` (lines 231-235). -/
def set_autoplay (gid : Nat) (enabled : Bool) (sys : QueueService) :
    QueueService :=
  let (st, sys1) := get_state gid sys
  { sys1 with mem := some { st with autoplay_enabled := enabled },
              db := sys1.db.set_autoplay enabled }

/-- Models `get_autoplay` (lines 237-243): lazy Redis pull like 24/7 mode. -/
def get_autoplay (gid : Nat) (sys : QueueService) : Bool × QueueService :=
  let (st, sys1) := get_state gid sys
  if st.loaded_autoplay then (st.autoplay_enabled, sys1)
  else
    let st' := { st with autoplay_enabled := sys1.db.get_autoplay, loaded_autoplay := true }
    (st'.autoplay_enabled, { sys1 with mem := some st' })

/-- Models `set_request_channel` (lines 247-249): straight to Redis, no state. -/
def set_request_channel (gid : Nat) (channel_id : Option Nat)
    (sys : QueueService) : QueueService :=
  { sys with db := sys.db.set_request_channel channel_id }

/-- Models `get_request_channel` (lines 251-253). -/
def get_request_channel (gid : Nat) (sys : QueueService) :
    Option Nat × QueueService :=
  (sys.db.get_request_channel, sys)

/-- Models `save_playlist` (lines 257-264): serialize `pending` with `current`
prepended; returns the stored count. -/
def save_playlist (gid : Nat) (name : String) (sys : QueueService) :
    Nat × QueueService :=
  let (st, sys1) := get_state gid sys
  let songs := st.queue.map Song.to_dict
  let songs :=
    match st.current_song with
    | some c => c.to_dict :: songs
    | none => songs
  (songs.length, { sys1 with db := sys1.db.save_playlist name songs })

/-- Models `load_playlist` (lines 266-271): `None` when the stored list is absent
*or empty* (`if playlist_data:`). -/
def load_playlist (gid : Nat) (name : String) (sys : QueueService) :
    Option (List Song) × QueueService :=
  match sys.db.load_playlist name with
  | some l => if l ≠ [] then (some (l.map Song.from_dict), sys) else (none, sys)
  | none => (none, sys)

/-- Models `delete_playlist` (lines 273-275). -/
def delete_playlist (gid : Nat) (name : String) (sys : QueueService) :
    Bool × QueueService :=
  let (ok, db') := sys.db.delete_playlist name
  (ok, { sys with db := db' })

/-- Models `list_playlists` (lines 277-279). -/
def list_playlists (gid : Nat) (sys : QueueService) : List String × QueueService :=
  (sys.db.list_playlists, sys)

end QueueService

/-- One guild's slice of `PlayerService` (src/services/player.py): the
shared `QueueService` plus membership of this guild in
`self._seeking_guilds`.  The Voice Transport and Extractor are external
collaborators, passed in as oracles:
* `vc` — whether `get_voice_client` finds a voice client;
* `refresh` — `ExtractorService.refresh_url` (`none` = failure);
* `ffmpegOk` — whether `discord.FFmpegOpusAudio(url, ...)` construction
  succeeds for a given stream URL (the only statement inside the `try`
  blocks that raises in practice). -/
structure PlayerService where
  qs : QueueService := {}
  seeking : Bool := false
deriving DecidableEq

namespace PlayerService

/-- Models `play_song` (src/services/player.py lines 76-123): refresh the stream
URL when absent (failure aborts with `False`), build the source, start
playback, record `startedAt = now` and reset the vote-skip set. -/
def play_song (vc : Bool) (refresh : Song → Option Song)
    (ffmpegOk : String → Bool) (now : ℚ) (gid : Nat) (song : Song)
    (sys : PlayerService) : Bool × PlayerService :=
  if ¬vc then (false, sys)
  else
    let step : Option (Song × PlayerService) :=
      if ¬song.is_url_valid then
        match refresh song with
        | none => none
        | some r => some (r, { sys with qs := QueueService.set_current gid (some r) sys.qs })
      else some (song, sys)
    match step with
    | none => (false, sys)
    | some (song, sys1) =>
        let (_, qs1) := QueueService.get_volume gid sys1.qs
        let (_, qs2) := QueueService.get_filter gid qs1
        let sys2 := { sys1 with qs := qs2 }
        if ffmpegOk song.url then
          let sys3 := { sys2 with qs := QueueService.set_song_start_time gid now sys2.qs }
          let sys4 := { sys3 with qs := QueueService.reset_skip_votes gid sys3.qs }
          (true, sys4)
        else (false, sys2)

/-- Models `play_next` (lines 125-146): a pending seek consumes the completion
as a no-op; otherwise pop the next song via the Queue Manager (nulling
`current` when nothing came back) and start it. -/
def play_next (vc : Bool) (refresh : Song → Option Song)
    (ffmpegOk : String → Bool) (now : ℚ) (gid : Nat)
    (sys : PlayerService) : Bool × PlayerService :=
  if sys.seeking then
    (false, { sys with seeking := false })
  else
    let (song?, qs1) := QueueService.get_next gid sys.qs
    match song? with
    | none => (false, { sys with qs := QueueService.set_current gid none qs1 })
    | some s => play_song vc refresh ffmpegOk now gid s { sys with qs := qs1 }

/-- Models `seek` (lines 181-230): needs a voice client and a current song;
refreshes an absent stream URL; on a successful source build it marks the
guild as seeking, sets `startedAt = now − seconds` and restarts the
transport; a construction error discards the seeking flag and fails. -/
def seek (vc : Bool) (refresh : Song → Option Song)
    (ffmpegOk : String → Bool) (now : ℚ) (gid : Nat) (seconds : Int)
    (sys : PlayerService) : Bool × PlayerService :=
  let (cur?, qs1) := QueueService.get_current gid sys.qs
  let sys1 := { sys with qs := qs1 }
  if ¬vc then (false, sys1)
  else
    match cur? with
    | none => (false, sys1)
    | some cur =>
        let step : Option (Song × PlayerService) :=
          if cur.url = "" then
            match refresh cur with
            | none => none
            | some r => some (r, { sys1 with qs := QueueService.set_current gid (some r) sys1.qs })
          else some (cur, sys1)
        match step with
        | none => (false, sys1)
        | some (cur, sys2) =>
            let (_, qs2) := QueueService.get_volume gid sys2.qs
            let (_, qs3) := QueueService.get_filter gid qs2
            let sys3 := { sys2 with qs := qs3 }
            if ffmpegOk cur.url then
              let sys4 := { sys3 with seeking := true }
              let sys5 := { sys4 with
                qs := QueueService.set_song_start_time gid ((now : ℚ) - (seconds : ℚ)) sys4.qs }
              (true, sys5)
            else (false, { sys3 with seeking := false })

end PlayerService

/-- Required vote count in `MusicCommands.skip`
(src/cogs/music/commands.py line 216):
`required = max(1, int(len(listeners) * config.VOTE_SKIP_THRESHOLD))`.
Python `int()` truncates toward zero, which is `⌊·⌋` for the non-negative
products that arise; the default threshold `0.5` and the listener counts
at issue multiply exactly in binary floating point, so `ℚ` is faithful. -/
def requiredVotes (listeners : Nat) (threshold : ℚ) : Nat :=
  max 1 (Int.toNat ⌊(listeners : ℚ) * threshold⌋)

/-- The observable outcome of the non-privileged branch of
`MusicCommands.skip`. -/
inductive SkipOutcome where
  | alreadyVoted
  | voteProgress (votes required : Nat)
  | skipTriggered
deriving DecidableEq, Repr

/-- The non-privileged vote path of `MusicCommands.skip`
(src/cogs/music/commands.py lines 211-225): a duplicate voter is rejected
before the count moves; otherwise the vote is recorded and compared with
`requiredVotes`. -/
def voteSkipStep (gid : Nat) (user listeners : Nat) (threshold : ℚ)
    (sys : QueueService) : SkipOutcome × QueueService :=
  let required := requiredVotes listeners threshold
  let (isNew, sys1) := QueueService.add_skip_vote gid user sys
  if ¬isNew then (.alreadyVoted, sys1)
  else
    let (votes, sys2) := QueueService.get_skip_votes gid sys1
    if votes < required then (.voteProgress votes required, sys2)
    else (.skipTriggered, sys2)

/-- Models `ExtractorService.search` (src/services/extractor.py lines 138-154)
as seen by `get_related_songs`: the yt-dlp call is an oracle; any
exception (`none`) is caught and turned into `[]`. -/
def searchSongs (ytdl : Option (List Song)) : List Song :=
  ytdl.getD []

/-- Models `ExtractorService.get_related_songs` (src/services/extractor.py lines
155-170): no webpage URL → `[]`; otherwise search for
`"<title> similar songs"` and filter out any result whose webpage URL
matches the original's. -/
def get_related_songs (ytdl : Option (List Song)) (song : Song) : List Song :=
  if song.webpage_url = "" then []
  else (searchSongs ytdl).filter (fun s => s.webpage_url ≠ song.webpage_url)

/-- One call to a public `QueueService` method, with its arguments
(results discarded).  `shuffle` carries the reordering oracle standing in
for `random.shuffle`. -/
inductive Op where
  | getState
  | add (song : Song)
  | addMany (songs : List Song)
  | removeAt (index : Int)
  | clearQueue
  | shuffleQueue (perm : List Song → List Song)
  | move (from_pos to_pos : Int)
  | getNext
  | getCurrent
  | setCurrent (song? : Option Song)
  | getQueue
  | setVolume (v : ℚ)
  | getVolume
  | setLoopMode (m : LoopMode)
  | cycleLoopMode
  | getLoopMode
  | setFilterOp (f : String)
  | getFilterOp
  | addSkipVote (u : Nat)
  | getSkipVotes
  | resetSkipVotes
  | setSongStartTime (t : ℚ)
  | getSongStartTime
  | setNowPlaying (m : Nat)
  | getNowPlaying
  | clearNowPlaying
  | cleanupGuild
  | set247 (b : Bool)
  | get247
  | setAutoplay (b : Bool)
  | getAutoplay
  | setRequestChannel (c : Option Nat)
  | getRequestChannel
  | savePlaylist (n : String)
  | loadPlaylist (n : String)
  | deletePlaylist (n : String)
  | listPlaylists

/-- Run one `QueueService` call against the system. -/
def Op.apply (gid : Nat) (sys : QueueService) : Op → QueueService
  | .getState => (QueueService.get_state gid sys).2
  | .add song => (QueueService.add gid song sys).2
  | .addMany songs => (QueueService.add_many gid songs sys).2
  | .removeAt index => (QueueService.remove gid index sys).2
  | .clearQueue => QueueService.clear gid sys
  | .shuffleQueue perm => QueueService.shuffle gid perm sys
  | .move f t => (QueueService.move gid f t sys).2
  | .getNext => (QueueService.get_next gid sys).2
  | .getCurrent => (QueueService.get_current gid sys).2
  | .setCurrent song? => QueueService.set_current gid song? sys
  | .getQueue => (QueueService.get_queue gid sys).2
  | .setVolume v => QueueService.set_volume gid v sys
  | .getVolume => (QueueService.get_volume gid sys).2
  | .setLoopMode m => QueueService.set_loop_mode gid m sys
  | .cycleLoopMode => (QueueService.cycle_loop_mode gid sys).2
  | .getLoopMode => (QueueService.get_loop_mode gid sys).2
  | .setFilterOp f => QueueService.set_filter gid f sys
  | .getFilterOp => (QueueService.get_filter gid sys).2
  | .addSkipVote u => (QueueService.add_skip_vote gid u sys).2
  | .getSkipVotes => (QueueService.get_skip_votes gid sys).2
  | .resetSkipVotes => QueueService.reset_skip_votes gid sys
  | .setSongStartTime t => QueueService.set_song_start_time gid t sys
  | .getSongStartTime => (QueueService.get_song_start_time gid sys).2
  | .setNowPlaying m => QueueService.set_now_playing_message gid m sys
  | .getNowPlaying => (QueueService.get_now_playing_message gid sys).2
  | .clearNowPlaying => QueueService.clear_now_playing_message gid sys
  | .cleanupGuild => QueueService.cleanup_guild gid sys
  | .set247 b => QueueService.set_247_mode gid b sys
  | .get247 => (QueueService.get_247_mode gid sys).2
  | .setAutoplay b => QueueService.set_autoplay gid b sys
  | .getAutoplay => (QueueService.get_autoplay gid sys).2
  | .setRequestChannel c => QueueService.set_request_channel gid c sys
  | .getRequestChannel => (QueueService.get_request_channel gid sys).2
  | .savePlaylist n => (QueueService.save_playlist gid n sys).2
  | .loadPlaylist n => (QueueService.load_playlist gid n sys).2
  | .deletePlaylist n => (QueueService.delete_playlist gid n sys).2
  | .listPlaylists => (QueueService.list_playlists gid sys).2

/-- Run a sequence of `QueueService` calls. -/
def runOps (gid : Nat) (ops : List Op) (sys : QueueService) : QueueService :=
  ops.foldl (fun s op => op.apply gid s) sys

/-- The volume invariant: every in-memory state and every persisted
volume lies in `[0, 1]`. -/
def VolumeOK (sys : QueueService) : Prop :=
  (∀ st, sys.mem = some st → 0 ≤ st.volume ∧ st.volume ≤ 1) ∧
  (∀ v, sys.db.settings.volume = some v → 0 ≤ v ∧ v ≤ 1)

/-- A freshly started process over an empty store: no in-memory state, no
persisted keys; `connected` reflects whether Redis came up. -/
def initSystem (connected : Bool) : QueueService :=
  { mem := none, db := { connected := connected } }

/-- Concrete track with a valid stream URL (used as scenario data). -/
def songA : Song :=
  { title := "a", url := "stream-a", webpage_url := "page-a", duration := 200 }

/-- Second concrete track with a valid stream URL. -/
def songB : Song :=
  { title := "b", url := "stream-b", webpage_url := "page-b", duration := 150 }

/-- Concrete track whose stream URL is absent (flat-loaded entry). -/
def songC : Song :=
  { title := "c", url := "", webpage_url := "page-c", duration := 100 }

/-- Concrete player system whose first pending track has no stream URL
(`songC`) followed by a playable one (`songB`). -/
def stalledSys : PlayerService :=
  { qs := { mem := some { guild_id := 1, queue := [songC, songB],
                          current_song := none, loop_mode := .off },
            db := {} },
    seeking := false }

/-- Concrete player system mid-playback: current track `songA`, pending
`[songB]`, not seeking (scenario data for the seek round-trip). -/
def seekSys : PlayerService :=
  { qs := { mem := some { GuildState.init 1 with
                            current_song := some songA,
                            queue := songB :: [], loop_mode := .off },
            db := {} },
    seeking := false }

/-- Concrete guild state with two pending tracks and a current track. -/
def sampleState : GuildState :=
  { guild_id := 1, queue := [songA, songB], current_song := some songC }

/-- Concrete queue system holding `sampleState` in memory. -/
def sampleSys : QueueService := { mem := some sampleState, db := {} }

/-! ## Theorems about the claims -/

/-- C1 counterexample: the claim says that with `loopMode='queue'`, empty
`pending` and `current=C`, `nextTrack()` returns `C` and cycles forever.
In the code the guard `if not self.queue and self.loop_mode != 'song'`
fires first: `get_next_song` returns `None` and nothing is requeued, so a
solo queue-looped track does not cycle. -/
theorem get_next_song_queue_loop_empty_pending :
    (GuildState.get_next_song
      { guild_id := 1, queue := [], current_song := some songA,
        loop_mode := .queue }).1 = none ∧
    (GuildState.get_next_song
      { guild_id := 1, queue := [], current_song := some songA,
        loop_mode := .queue }).2.queue = [] := by
  constructor <;> rfl

/-- C1 amended: `nextTrack()` is loop-mode aware as claimed for the
non-empty cases — with `loopMode='song'` and a current track it returns
`current` with `pending` completely untouched (priority over consuming the
queue); with `loopMode='queue'`, a current track and non-empty pending
`[a, …rest]` it appends `current` to the tail and pops the head, giving
`rest ++ [current]`; but with `loopMode='queue'` and empty pending it
returns `null` without requeueing (no forever-cycling). -/
theorem get_next_song_loop_mode_aware (st : GuildState) (c a : Song)
    (rest : List Song) :
    (GuildState.get_next_song { st with loop_mode := .song, current_song := some c }
      = (some c, { st with loop_mode := .song, current_song := some c })) ∧
    (GuildState.get_next_song
        { st with loop_mode := .queue, current_song := some c, queue := a :: rest }
      = (some a,
          { st with loop_mode := .queue, current_song := some c,
                    queue := rest ++ [c] })) ∧
    (GuildState.get_next_song
        { st with loop_mode := .queue, current_song := some c, queue := [] }
      = (none,
          { st with loop_mode := .queue, current_song := some c, queue := [] })) := by
  refine ⟨?_, ?_, ?_⟩ <;> simp [GuildState.get_next_song]

/-- C5 counterexample: with `loopMode='off'` and empty `pending`,
`QueueService.get_next` returns `None` but does *not* set `current` to
null — `current_song` is only overwritten when a song came back
(`if song:`), so the previous current track survives the call.  (The
nulling happens later, in `PlayerService.play_next`.) -/
theorem get_next_does_not_null_current :
    (QueueService.get_next 1
        { mem := some { guild_id := 1, queue := [], current_song := some songA,
                        loop_mode := .off },
          db := {} }).1 = none ∧
    (QueueService.get_next 1
        { mem := some { guild_id := 1, queue := [], current_song := some songA,
                        loop_mode := .off },
          db := {} }).2.mem.map (fun st => st.current_song) = some (some songA) := by
  constructor <;> rfl

/-- C5 amended: with `loopMode='off'` and empty `pending`, the Queue
Manager's `get_next` returns `null` and leaves the tenant state (including
`current`) and the store unchanged; the Playback Controller's `play_next`,
receiving `null`, is what sets `current` to null (and reports no track). -/
theorem get_next_empty_off_play_next_nulls_current (gid : Nat)
    (st0 : GuildState) (c? : Option Song) (db : RedisManager) (vc : Bool)
    (refresh : Song → Option Song) (ffmpegOk : String → Bool) (now : ℚ) :
    (QueueService.get_next gid
        { mem := some { st0 with queue := [], loop_mode := .off, current_song := c? },
          db := db }
      = (none,
          { mem := some { st0 with queue := [], loop_mode := .off, current_song := c? },
            db := db })) ∧
    (PlayerService.play_next vc refresh ffmpegOk now gid
        { qs := { mem := some { st0 with queue := [], loop_mode := .off, current_song := c? },
                  db := db },
          seeking := false }
      = (false,
          { qs := { mem := some { st0 with queue := [], loop_mode := .off, current_song := none },
                    db := db },
            seeking := false })) := by
  constructor
  · simp [QueueService.get_next, QueueService.get_state, GuildState.get_next_song]
  · simp [PlayerService.play_next, QueueService.get_next, QueueService.get_state,
      GuildState.get_next_song, QueueService.set_current]

/-- C6: for an index outside `[0, len(pending))` (negatives included),
`remove` returns `None` and `move` returns `False` with the invalid index
in either position, and in every rejection case the whole system — tenant
state and store — is returned unchanged (nothing persisted). -/
theorem remove_move_reject_out_of_range (gid : Nat) (sys : QueueService)
    (st : GuildState) (i : Int) (hmem : sys.mem = some st)
    (hi : ¬(0 ≤ i ∧ i < (st.queue.length : Int))) :
    QueueService.remove gid i sys = (none, sys) ∧
    (∀ k : Int, QueueService.move gid i k sys = (false, sys)) ∧
    (∀ k : Int, QueueService.move gid k i sys = (false, sys)) := by
  obtain ⟨mem, db⟩ := sys
  simp only [QueueService.mk.injEq] at hmem ⊢
  subst hmem
  refine ⟨?_, fun k => ?_, fun k => ?_⟩ <;>
    simp [QueueService.remove, QueueService.move, QueueService.get_state,
      GuildState.remove_from_queue, GuildState.move_song, hi]

/-- C6 witness: index 5 is out of range for the two-track sample queue;
`remove` and both `move` variants reject it and change nothing. -/
theorem remove_move_reject_out_of_range_witness :
    QueueService.remove 1 5 sampleSys = (none, sampleSys) ∧
    QueueService.move 1 5 0 sampleSys = (false, sampleSys) ∧
    QueueService.move 1 0 5 sampleSys = (false, sampleSys) := by
  have h := remove_move_reject_out_of_range 1 sampleSys sampleState 5 rfl (by decide)
  exact ⟨h.1, h.2.1 0, h.2.2 0⟩

/-- Serialization round-trip for one track: `from_dict (to_dict s)`
restores every persisted field and only drops the requester. -/
theorem from_dict_to_dict (s : Song) :
    Song.from_dict (Song.to_dict s) = { s with requester := none } := by
  cases s
  rfl

/-- C7: persisting a tenant's `pending` queue with `save_queue` and
rehydrating it into a fresh Queue Manager instance (`mem := none`,
`get_state`) yields the same ordered sequence of tracks with every
persisted field (title, stream URL, webpage URL, duration, thumbnail,
original URL, uploader, view count) preserved and only the requester
identity dropped. -/
theorem queue_persistence_roundtrip (gid : Nat) (l : List Song)
    (db : RedisManager) :
    (∀ s : Song, Song.from_dict (Song.to_dict s) = { s with requester := none }) ∧
    (QueueService.get_state gid
        { mem := none,
          db := RedisManager.save_queue { db with connected := true }
                  (l.map Song.to_dict) }).1.queue
      = l.map (fun s => { s with requester := none }) := by
  refine ⟨from_dict_to_dict, ?_⟩
  cases l with
  | nil =>
      simp [QueueService.get_state, RedisManager.save_queue, RedisManager.load_queue,
        GuildState.init]
  | cons hd tl =>
      simp [QueueService.get_state, RedisManager.save_queue, RedisManager.load_queue,
        GuildState.init, from_dict_to_dict]

/-- Dict-assignment lookup: after `playlists[name] = songs`, looking up
`name` finds exactly `songs`. -/
theorem upsert_find (pl : List (String × List SongDict)) (name : String)
    (songs : List SongDict) :
    ((RedisManager.upsert pl name songs).find?
        (fun p => p.1 = name)).map Prod.snd = some songs := by
  unfold RedisManager.upsert
  split
  · rename_i hany
    induction pl with
    | nil => simp at hany
    | cons hd tl ih =>
        by_cases hhd : hd.1 = name
        · simp [List.find?, hhd]
        · simp only [List.any_cons, Bool.or_eq_true, decide_eq_true_eq] at hany
          rcases hany with h | h
          · exact absurd h hhd
          · simpa [List.find?, hhd] using ih h
  · rename_i hany
    have hnone : pl.find? (fun p => decide (p.1 = name)) = none := by
      rw [List.find?_eq_none]
      intro p hp
      simp only [decide_eq_true_eq]
      intro hcontra
      exact hany (List.any_eq_true.mpr ⟨p, hp, by simp [hcontra]⟩)
    simp [List.find?_append, hnone, List.find?]

/-- C9: saving a playlist while `pending` is empty and `current` is null
stores an empty track list under the name and reports count 0, yet
loading that same name afterwards returns `None` — the empty stored list
is indistinguishable, at the load interface (`if playlist_data:`), from a
playlist that was never saved. -/
theorem save_empty_playlist_loads_none (gid : Nat) (st0 : GuildState)
    (db0 : RedisManager) (name : String) :
    (QueueService.save_playlist gid name
        { mem := some { st0 with queue := [], current_song := none },
          db := { db0 with connected := true } }).1 = 0 ∧
    RedisManager.load_playlist
        (QueueService.save_playlist gid name
          { mem := some { st0 with queue := [], current_song := none },
            db := { db0 with connected := true } }).2.db name = some [] ∧
    (QueueService.load_playlist gid name
        (QueueService.save_playlist gid name
          { mem := some { st0 with queue := [], current_song := none },
            db := { db0 with connected := true } }).2).1 = none := by
  refine ⟨?_, ?_, ?_⟩
  · simp [QueueService.save_playlist, QueueService.get_state]
  · simp [QueueService.save_playlist, QueueService.get_state,
      RedisManager.load_playlist, RedisManager.save_playlist,
      RedisManager.get_all_playlists, upsert_find]
  · simp [QueueService.load_playlist, QueueService.save_playlist, QueueService.get_state,
      RedisManager.load_playlist, RedisManager.save_playlist,
      RedisManager.get_all_playlists, upsert_find]

/-- C3 counterexample: the claim says required votes =
`ceil(nonBotListenerCount * threshold)` (min 1), but the code computes
`max(1, int(len(listeners) * threshold))`, and Python `int()` truncates.
With 3 non-bot listeners and threshold 0.5 the code requires 1 vote where
the claimed ceiling formula gives 2. -/
theorem required_votes_truncates_not_ceils :
    requiredVotes 3 (1/2) = 1 ∧
    max 1 (Int.toNat ⌈(3 : ℚ) * (1/2)⌉) = 2 ∧
    requiredVotes 3 (1/2) ≠ max 1 (Int.toNat ⌈(3 : ℚ) * (1/2)⌉) := by
  have hf : ⌊(3 : ℚ) * 2⁻¹⌋ = 1 := by
    rw [Int.floor_eq_iff] <;> norm_num
  have hc : ⌈(3 : ℚ) * 2⁻¹⌉ = 2 := by
    rw [Int.ceil_eq_iff] <;> norm_num
  refine ⟨?_, ?_, ?_⟩ <;> simp [requiredVotes, hf, hc]

/-- C3 amended: required votes = `max(1, floor(listeners * threshold))`
(truncation, not ceiling).  With 4 non-bot listeners and threshold 0.5
the requirement is 2: a first vote reports progress 1/2, a second vote
from a distinct user triggers the skip; a duplicate vote from a user
already in the vote set is answered with the distinct already-voted
signal and leaves the count and the whole system unchanged.  With 3
listeners the requirement is 1 (floor), not 2 (ceiling). -/
theorem vote_skip_flow (gid u1 u2 u3 : Nat) (st0 st1 : GuildState)
    (db : RedisManager) (hne : u1 ≠ u2) (hdup : u3 ∈ st1.vote_skip_users) :
    (voteSkipStep gid u1 4 (1/2)
        { mem := some { st0 with vote_skip_users := ∅ }, db := db }
      = (.voteProgress 1 2,
          { mem := some { st0 with vote_skip_users := {u1} }, db := db })) ∧
    (voteSkipStep gid u2 4 (1/2)
        { mem := some { st0 with vote_skip_users := {u1} }, db := db }
      = (.skipTriggered,
          { mem := some { st0 with vote_skip_users := insert u2 {u1} }, db := db })) ∧
    (voteSkipStep gid u3 4 (1/2) { mem := some st1, db := db }
      = (.alreadyVoted, { mem := some st1, db := db })) ∧
    requiredVotes 4 (1/2) = 2 ∧ requiredVotes 3 (1/2) = 1 := by
  have hf4 : ⌊(4 : ℚ) * 2⁻¹⌋ = 2 := by
    rw [Int.floor_eq_iff] <;> norm_num
  have hf3 : ⌊(3 : ℚ) * 2⁻¹⌋ = 1 := by
    rw [Int.floor_eq_iff] <;> norm_num
  have h4 : requiredVotes 4 (1/2) = 2 := by simp [requiredVotes, hf4]
  have h3 : requiredVotes 3 (1/2) = 1 := by simp [requiredVotes, hf3]
  have h4' : requiredVotes 4 (2⁻¹) = 2 := by simp [requiredVotes, hf4]
  refine ⟨?_, ?_, ?_, h4, h3⟩
  · simp [voteSkipStep, QueueService.add_skip_vote, QueueService.get_skip_votes,
      QueueService.get_state, h4, h4']
  · have hmem : u2 ∉ ({u1} : Finset Nat) := by simp [Ne.symm hne]
    simp [voteSkipStep, QueueService.add_skip_vote, QueueService.get_skip_votes,
      QueueService.get_state, h4, h4', hmem, Finset.card_insert_of_not_mem]
  · simp [voteSkipStep, QueueService.add_skip_vote, QueueService.get_state, hdup]

/-- C3 witness: users 10 and 11 in a 4-listener channel at threshold 0.5;
user 12 has already voted in `sampleState`'s successor state. -/
theorem vote_skip_flow_witness :
    (voteSkipStep 1 10 4 (1/2)
        { mem := some { sampleState with vote_skip_users := ∅ }, db := {} }
      = (.voteProgress 1 2,
          { mem := some { sampleState with vote_skip_users := {10} }, db := {} })) ∧
    (voteSkipStep 1 11 4 (1/2)
        { mem := some { sampleState with vote_skip_users := {10} }, db := {} }
      = (.skipTriggered,
          { mem := some { sampleState with vote_skip_users := insert 11 {10} }, db := {} })) ∧
    (voteSkipStep 1 12 4 (1/2)
        { mem := some { sampleState with vote_skip_users := {12} }, db := {} }
      = (.alreadyVoted,
          { mem := some { sampleState with vote_skip_users := {12} }, db := {} })) ∧
    requiredVotes 4 (1/2) = 2 ∧ requiredVotes 3 (1/2) = 1 := by
  have h := vote_skip_flow 1 10 11 12 sampleState
    { sampleState with vote_skip_users := {12} } {} (by decide) (by decide)
  exact h

/-- C10: the related-songs lookup used for autoplay never returns a track
whose webpage URL equals the original's (the original is filtered out of
the recommendations), and it returns the empty list — not an error — when
the track has no webpage URL or the underlying yt-dlp search fails. -/
theorem get_related_songs_spec (ytdl : Option (List Song)) (song s : Song)
    (hmem : s ∈ get_related_songs ytdl song) :
    s.webpage_url ≠ song.webpage_url ∧
    get_related_songs ytdl { song with webpage_url := "" } = [] ∧
    get_related_songs none song = [] := by
  refine ⟨?_, ?_, ?_⟩
  · by_cases hw : song.webpage_url = ""
    · simp [get_related_songs, hw] at hmem
    · simp only [get_related_songs, hw, if_false, List.mem_filter,
        decide_eq_true_eq] at hmem
      exact hmem.2
  · simp [get_related_songs]
  · simp [get_related_songs, searchSongs]

/-- C10 witness: a search result containing the original track and one
other; membership of the other in the filtered output is concrete. -/
theorem get_related_songs_spec_witness :
    songB.webpage_url ≠ songA.webpage_url ∧
    get_related_songs (some [songA, songB]) { songA with webpage_url := "" } = [] ∧
    get_related_songs none songA = [] := by
  exact get_related_songs_spec (some [songA, songB]) songA songB (by decide)

/-- C4 counterexample: with a pending queue `[songC, songB]` where
`songC` has no stream URL and every refresh fails, one `play_next` call
returns `False` while `songB` is still sitting in `pending` and the
failed `songC` is left as `current` — the controller did not recurse into
`play_next` to attempt the following track, so the queue stalls instead
of draining. -/
theorem play_next_no_recursion_counterexample :
    (PlayerService.play_next true (fun _ => none) (fun _ => true) 50 1 stalledSys).1
      = false ∧
    (PlayerService.play_next true (fun _ => none) (fun _ => true) 50 1 stalledSys).2.qs.mem.map
      (fun st => st.queue) = some [songB] ∧
    (PlayerService.play_next true (fun _ => none) (fun _ => true) 50 1 stalledSys).2.qs.mem.map
      (fun st => st.current_song) = some (some songC) := by
  refine ⟨rfl, rfl, rfl⟩

/-- C4 amended: when `play_next` pops a track with no stream URL and
`refresh_url` fails, `play_song` reports failure and `play_next` returns
`False` without attempting the following track: the failed track (already
popped from `pending` by `get_next`) stays as `current`, the remaining
queue is persisted untouched, and nothing recurses — an all-failing queue
stalls after its first track rather than draining. -/
theorem play_next_refresh_failure_stalls (refresh : Song → Option Song)
    (ffmpegOk : String → Bool) (now : ℚ) (gid : Nat) (st0 : GuildState)
    (c? : Option Song) (db : RedisManager) (t : Song) (rest : List Song)
    (hurl : t.url = "") (href : refresh t = none) :
    PlayerService.play_next true refresh ffmpegOk now gid
      { qs := { mem := some { st0 with queue := t :: rest, current_song := c?, loop_mode := .off },
                db := db },
        seeking := false }
    = (false,
        { qs := { mem := some { st0 with queue := rest, current_song := some t, loop_mode := .off },
                  db := db.save_queue (rest.map Song.to_dict) },
          seeking := false }) := by
  simp [PlayerService.play_next, PlayerService.play_song, QueueService.get_next,
    QueueService.get_state, GuildState.get_next_song, QueueService.save_queue_to_redis,
    Song.is_url_valid, hurl, href]

/-- C4 witness: the amended behaviour evaluated on the concrete stalled
scenario. -/
theorem play_next_refresh_failure_stalls_witness :
    PlayerService.play_next true (fun _ => none) (fun _ => true) 50 1
      { qs := { mem := some { GuildState.init 1 with
                                queue := songC :: [songB],
                                current_song := none, loop_mode := .off },
                db := {} },
        seeking := false }
    = (false,
        { qs := { mem := some { GuildState.init 1 with
                                  queue := [songB],
                                  current_song := some songC, loop_mode := .off },
                  db := RedisManager.save_queue {} ([songB].map Song.to_dict) },
          seeking := false }) := by
  exact play_next_refresh_failure_stalls (fun _ => none) (fun _ => true) 50 1
    (GuildState.init 1) none {} songC [songB] rfl rfl

/-- C2: when `seek(tenant, s)` succeeds at wall-clock `now1` (voice client
present, current track with a stream URL, source build succeeds), the
recorded start timestamp becomes exactly `now1 − s` and the seeking flag
is raised; the very next completion callback (`play_next`) is consumed as
a no-op — it returns `False` and changes nothing but the flag, calling
neither `get_next` nor popping `pending`; the second completion callback
then advances the queue normally: it pops the head `b` of `pending`,
makes it `current` and records its own start time. -/
theorem seek_one_shot_completion
    (refresh : Song → Option Song) (ffmpegOk : String → Bool)
    (now1 now2 now3 : ℚ) (s : Int) (gid : Nat)
    (st0 : GuildState) (db : RedisManager) (c b : Song) (rest : List Song)
    (sys sysA sysB sysC : PlayerService) (r1 r2 r3 : Bool)
    (hc : c.url ≠ "") (hb : b.url ≠ "")
    (hfc : ffmpegOk c.url = true) (hfb : ffmpegOk b.url = true)
    (hsys : sys =
      { qs := { mem := some { st0 with current_song := some c, queue := b :: rest, loop_mode := .off },
                db := db },
        seeking := false })
    (hseek : PlayerService.seek true refresh ffmpegOk now1 gid s sys = (r1, sysA))
    (hcb1 : PlayerService.play_next true refresh ffmpegOk now2 gid sysA = (r2, sysB))
    (hcb2 : PlayerService.play_next true refresh ffmpegOk now3 gid sysB = (r3, sysC)) :
    r1 = true ∧
    sysA.qs.mem.map (fun st => st.song_start_time) = some (some (now1 - s)) ∧
    sysA.seeking = true ∧
    r2 = false ∧
    sysB = { sysA with seeking := false } ∧
    r3 = true ∧
    sysC.qs.mem.map (fun st => st.current_song) = some (some b) ∧
    sysC.qs.mem.map (fun st => st.queue) = some rest ∧
    sysC.qs.mem.map (fun st => st.song_start_time) = some (some now3) := by
  subst hsys
  simp [PlayerService.seek, QueueService.get_current, QueueService.get_state,
    QueueService.get_volume, QueueService.get_filter, QueueService.set_song_start_time,
    hc, hfc, Prod.mk.injEq] at hseek
  obtain ⟨h1, h2⟩ := hseek
  subst h1
  subst h2
  simp only [PlayerService.play_next, if_pos, Prod.mk.injEq] at hcb1
  obtain ⟨h3, h4⟩ := hcb1
  subst h3
  subst h4
  simp [PlayerService.play_next, PlayerService.play_song, QueueService.get_next,
    QueueService.get_state, GuildState.get_next_song, QueueService.save_queue_to_redis,
    QueueService.get_volume, QueueService.get_filter, QueueService.set_song_start_time,
    QueueService.reset_skip_votes, GuildState.reset_vote_skip, Song.is_url_valid,
    hb, hfb] at hcb2
  obtain ⟨h5, h6⟩ := hcb2
  subst h5
  subst h6
  refine ⟨rfl, rfl, rfl, rfl, rfl, rfl, rfl, rfl, rfl⟩

/-- C2 witness: a concrete seek to 30s at time 100 on `seekSys`, followed
by two completion callbacks at times 150 and 200. -/
theorem seek_one_shot_completion_witness :
    (PlayerService.seek true (fun _ => none) (fun _ => true) 100 1 30 seekSys).1 = true ∧
    (PlayerService.seek true (fun _ => none) (fun _ => true) 100 1 30 seekSys).2.qs.mem.map
      (fun st => st.song_start_time) = some (some ((100 : ℚ) - ((30 : Int) : ℚ))) ∧
    (PlayerService.seek true (fun _ => none) (fun _ => true) 100 1 30 seekSys).2.seeking = true ∧
    (PlayerService.play_next true (fun _ => none) (fun _ => true) 150 1
      (PlayerService.seek true (fun _ => none) (fun _ => true) 100 1 30 seekSys).2).1 = false ∧
    (PlayerService.play_next true (fun _ => none) (fun _ => true) 150 1
        (PlayerService.seek true (fun _ => none) (fun _ => true) 100 1 30 seekSys).2).2
      = { (PlayerService.seek true (fun _ => none) (fun _ => true) 100 1 30 seekSys).2 with
            seeking := false } ∧
    (PlayerService.play_next true (fun _ => none) (fun _ => true) 200 1
      (PlayerService.play_next true (fun _ => none) (fun _ => true) 150 1
        (PlayerService.seek true (fun _ => none) (fun _ => true) 100 1 30 seekSys).2).2).1 = true ∧
    (PlayerService.play_next true (fun _ => none) (fun _ => true) 200 1
      (PlayerService.play_next true (fun _ => none) (fun _ => true) 150 1
        (PlayerService.seek true (fun _ => none) (fun _ => true) 100 1 30 seekSys).2).2).2.qs.mem.map
      (fun st => st.current_song) = some (some songB) ∧
    (PlayerService.play_next true (fun _ => none) (fun _ => true) 200 1
      (PlayerService.play_next true (fun _ => none) (fun _ => true) 150 1
        (PlayerService.seek true (fun _ => none) (fun _ => true) 100 1 30 seekSys).2).2).2.qs.mem.map
      (fun st => st.queue) = some [] ∧
    (PlayerService.play_next true (fun _ => none) (fun _ => true) 200 1
      (PlayerService.play_next true (fun _ => none) (fun _ => true) 150 1
        (PlayerService.seek true (fun _ => none) (fun _ => true) 100 1 30 seekSys).2).2).2.qs.mem.map
      (fun st => st.song_start_time) = some (some (200 : ℚ)) := by
  exact seek_one_shot_completion (fun _ => none) (fun _ => true) 100 150 200 30 1
    (GuildState.init 1) {} songA songB [] seekSys
    (PlayerService.seek true (fun _ => none) (fun _ => true) 100 1 30 seekSys).2
    (PlayerService.play_next true (fun _ => none) (fun _ => true) 150 1
      (PlayerService.seek true (fun _ => none) (fun _ => true) 100 1 30 seekSys).2).2
    (PlayerService.play_next true (fun _ => none) (fun _ => true) 200 1
      (PlayerService.play_next true (fun _ => none) (fun _ => true) 150 1
        (PlayerService.seek true (fun _ => none) (fun _ => true) 100 1 30 seekSys).2).2).2
    (PlayerService.seek true (fun _ => none) (fun _ => true) 100 1 30 seekSys).1
    (PlayerService.play_next true (fun _ => none) (fun _ => true) 150 1
      (PlayerService.seek true (fun _ => none) (fun _ => true) 100 1 30 seekSys).2).1
    (PlayerService.play_next true (fun _ => none) (fun _ => true) 200 1
      (PlayerService.play_next true (fun _ => none) (fun _ => true) 150 1
        (PlayerService.seek true (fun _ => none) (fun _ => true) 100 1 30 seekSys).2).2).1
    (by decide) (by decide) rfl rfl rfl rfl rfl rfl

/-- The volume Redis reads back is in range whenever every stored volume
is (the default `1.0` and the disconnected fallback are in range too). -/
theorem get_volume_bounds (db : RedisManager)
    (hd : ∀ v, db.settings.volume = some v → 0 ≤ v ∧ v ≤ 1) :
    0 ≤ db.get_volume ∧ db.get_volume ≤ 1 := by
  unfold RedisManager.get_volume
  cases hc : db.connected
  · simp
  · cases hv : db.settings.volume with
    | none => simp
    | some v => simpa using hd v hv

/-- Models `get_state` under the volume invariant: the resulting system still
satisfies it, the returned state's volume is in range, the store is
untouched, and the returned state is exactly what is now in memory. -/
theorem get_state_spec (gid : Nat) (sys : QueueService) (h : VolumeOK sys) :
    VolumeOK (QueueService.get_state gid sys).2 ∧
    (0 ≤ (QueueService.get_state gid sys).1.volume ∧
      (QueueService.get_state gid sys).1.volume ≤ 1) ∧
    (QueueService.get_state gid sys).2.db = sys.db ∧
    (QueueService.get_state gid sys).2.mem = some (QueueService.get_state gid sys).1 := by
  obtain ⟨hm, hd⟩ := h
  cases hsm : sys.mem with
  | some st =>
      have hb := hm st hsm
      simp only [QueueService.get_state, hsm]
      exact ⟨⟨hm, hd⟩, hb, by simp, by simp⟩
  | none =>
      have hb := get_volume_bounds sys.db hd
      simp only [QueueService.get_state, hsm]
      refine ⟨⟨?_, hd⟩, ?_, by simp, by simp⟩
      · intro s hs
        simp only [Option.some.injEq] at hs
        subst hs
        simpa using hb
      · simpa using hb

/-- Models `save_queue` never touches the settings blob. -/
theorem settings_save_queue (db : RedisManager) (q : List SongDict) :
    (db.save_queue q).settings = db.settings := by
  unfold RedisManager.save_queue
  split <;> rfl

/-- Models `clear_queue` never touches the settings blob. -/
theorem settings_clear_queue (db : RedisManager) :
    db.clear_queue.settings = db.settings := by
  unfold RedisManager.clear_queue
  split <;> rfl

/-- Models `save_playlist` never touches the settings blob. -/
theorem settings_save_playlist (db : RedisManager) (n : String)
    (s : List SongDict) : (db.save_playlist n s).settings = db.settings := by
  unfold RedisManager.save_playlist
  split <;> rfl

/-- Models `delete_playlist` never touches the settings blob. -/
theorem settings_delete_playlist (db : RedisManager) (n : String) :
    (db.delete_playlist n).2.settings = db.settings := by
  unfold RedisManager.delete_playlist
  split
  · split <;> rfl
  · rfl

/-- Models `save_queue_to_redis` preserves the volume invariant. -/
theorem save_queue_to_redis_volumeOK (sys : QueueService) (h : VolumeOK sys) :
    VolumeOK (QueueService.save_queue_to_redis sys) := by
  obtain ⟨hm, hd⟩ := h
  unfold QueueService.save_queue_to_redis
  cases hsm : sys.mem with
  | none => exact ⟨hm, hd⟩
  | some st =>
      refine ⟨by simpa [hsm] using hm, ?_⟩
      intro v hv
      rw [settings_save_queue] at hv
      exact hd v hv

/-- Replacing the in-memory state with one whose volume is in range
preserves the invariant. -/
theorem volumeOK_update_mem (sys1 : QueueService) (st' : GuildState)
    (hok1 : VolumeOK sys1) (hv : 0 ≤ st'.volume ∧ st'.volume ≤ 1) :
    VolumeOK { sys1 with mem := some st' } := by
  refine ⟨?_, hok1.2⟩
  intro s hs
  have heq : st' = s := by simpa using hs
  subst heq
  exact hv

/-- As above, together with a store update that keeps the persisted
volume unchanged. -/
theorem volumeOK_update_mem_db (sys1 : QueueService) (st' : GuildState)
    (db' : RedisManager) (hok1 : VolumeOK sys1)
    (hv : 0 ≤ st'.volume ∧ st'.volume ≤ 1)
    (hdb : db'.settings.volume = sys1.db.settings.volume) :
    VolumeOK { sys1 with mem := some st', db := db' } := by
  refine ⟨?_, ?_⟩
  · intro s hs
    have heq : st' = s := by simpa using hs
    subst heq
    exact hv
  · intro v hv2
    exact hok1.2 v (by rw [← hdb]; exact hv2)

/-- Models `set_loop_mode` keeps the persisted volume unchanged. -/
theorem volume_set_loop_mode (db : RedisManager) (m : LoopMode) :
    (db.set_loop_mode m).settings.volume = db.settings.volume := by
  unfold RedisManager.set_loop_mode
  split <;> rfl

/-- Models `set_filter` keeps the persisted volume unchanged. -/
theorem volume_set_filter (db : RedisManager) (f : String) :
    (db.set_filter f).settings.volume = db.settings.volume := by
  unfold RedisManager.set_filter
  split <;> rfl

/-- Models `set_247_mode` keeps the persisted volume unchanged. -/
theorem volume_set_247_mode (db : RedisManager) (b : Bool) :
    (db.set_247_mode b).settings.volume = db.settings.volume := by
  unfold RedisManager.set_247_mode
  split <;> rfl

/-- Models `set_autoplay` keeps the persisted volume unchanged. -/
theorem volume_set_autoplay (db : RedisManager) (b : Bool) :
    (db.set_autoplay b).settings.volume = db.settings.volume := by
  unfold RedisManager.set_autoplay
  split <;> rfl

/-- Models `set_request_channel` keeps the persisted volume unchanged. -/
theorem volume_set_request_channel (db : RedisManager) (c : Option Nat) :
    (db.set_request_channel c).settings.volume = db.settings.volume := by
  unfold RedisManager.set_request_channel
  split <;> rfl

/-- Models `get_next_song` never changes the volume of the state. -/
theorem get_next_song_volume (st : GuildState) :
    (st.get_next_song).2.volume = st.volume := by
  unfold GuildState.get_next_song
  by_cases h1 : st.queue = [] ∧ st.loop_mode ≠ .song
  · simp [h1]
  · simp only [if_neg h1]
    by_cases h2 : st.loop_mode = .song ∧ st.current_song.isSome = true
    · simp [h2]
    · simp only [if_neg h2]
      by_cases h3 : st.loop_mode = .queue ∧ st.current_song.isSome = true
      · simp only [if_pos h3]
        cases hq : st.queue ++ st.current_song.toList <;> simp [hq]
      · simp only [if_neg h3]
        cases hq : st.queue <;> simp [hq]

/-- Every single `QueueService` operation preserves the volume
invariant. -/
theorem op_preserves_volumeOK (gid : Nat) (op : Op) (sys : QueueService)
    (h : VolumeOK sys) : VolumeOK (op.apply gid sys) := by
  have hspec := get_state_spec gid sys h
  rcases hgs : QueueService.get_state gid sys with ⟨st, sys1⟩
  rw [hgs] at hspec
  dsimp only at hspec
  obtain ⟨hok1, hvol, hdb1, hmem1⟩ := hspec
  cases op with
  | getState =>
      simpa only [Op.apply, hgs] using hok1
  | add song =>
      simp only [Op.apply, QueueService.add, GuildState.add_to_queue, hgs]
      exact save_queue_to_redis_volumeOK _
        (volumeOK_update_mem sys1 _ hok1 (by simpa using hvol))
  | addMany songs =>
      simp only [Op.apply, QueueService.add_many, hgs]
      exact save_queue_to_redis_volumeOK _
        (volumeOK_update_mem sys1 _ hok1 (by simpa using hvol))
  | removeAt index =>
      simp only [Op.apply, QueueService.remove, GuildState.remove_from_queue, hgs]
      by_cases hc : 0 ≤ index ∧ index < (st.queue.length : Int)
      · simp only [if_pos hc]
        cases hg : st.queue.get? index.toNat with
        | none =>
            simp only [hg]
            exact volumeOK_update_mem sys1 _ hok1 (by simpa using hvol)
        | some s =>
            simp only [hg]
            exact save_queue_to_redis_volumeOK _
              (volumeOK_update_mem sys1 _ hok1 (by simpa using hvol))
      · simp only [if_neg hc]
        exact volumeOK_update_mem sys1 _ hok1 (by simpa using hvol)
  | clearQueue =>
      simp only [Op.apply, QueueService.clear, GuildState.clear_queue, hgs]
      exact volumeOK_update_mem_db sys1 _ _ hok1 (by simpa using hvol)
        (by rw [settings_clear_queue])
  | shuffleQueue perm =>
      simp only [Op.apply, QueueService.shuffle, hgs]
      exact save_queue_to_redis_volumeOK _
        (volumeOK_update_mem sys1 _ hok1 (by simpa using hvol))
  | move f t =>
      simp only [Op.apply, QueueService.move, GuildState.move_song, hgs]
      by_cases hc : (0 ≤ f ∧ f < (st.queue.length : Int)) ∧
          (0 ≤ t ∧ t < (st.queue.length : Int))
      · simp only [if_pos hc]
        cases hg : st.queue.get? f.toNat with
        | none =>
            simp only [hg]
            exact save_queue_to_redis_volumeOK _
              (volumeOK_update_mem sys1 _ hok1 (by simpa using hvol))
        | some s =>
            simp only [hg]
            exact save_queue_to_redis_volumeOK _
              (volumeOK_update_mem sys1 _ hok1 (by simpa using hvol))
      · simp only [if_neg hc]
        exact volumeOK_update_mem sys1 _ hok1 (by simpa using hvol)
  | getNext =>
      simp only [Op.apply, QueueService.get_next, hgs]
      have hnv := get_next_song_volume st
      rcases hns : st.get_next_song with ⟨song?, st'⟩
      rw [hns] at hnv
      have hvol' : 0 ≤ st'.volume ∧ st'.volume ≤ 1 := by
        rw [hnv]
        simpa using hvol
      cases song? with
      | none =>
          simp only [hns]
          exact volumeOK_update_mem sys1 _ hok1 hvol'
      | some s =>
          simp only [hns]
          exact save_queue_to_redis_volumeOK _
            (volumeOK_update_mem sys1 _ hok1 (by simpa using hvol'))
  | getCurrent =>
      simpa only [Op.apply, QueueService.get_current, hgs] using hok1
  | setCurrent song? =>
      simp only [Op.apply, QueueService.set_current, hgs]
      exact volumeOK_update_mem sys1 _ hok1 (by simpa using hvol)
  | getQueue =>
      simpa only [Op.apply, QueueService.get_queue, hgs] using hok1
  | setVolume v =>
      simp only [Op.apply, QueueService.set_volume, hgs]
      have hcl : 0 ≤ max 0 (min 1 v) ∧ max 0 (min 1 v) ≤ 1 :=
        ⟨le_max_left 0 _, max_le zero_le_one (min_le_left 1 v)⟩
      refine ⟨?_, ?_⟩
      · intro s hs
        injection hs with hs
        subst hs
        simpa using hcl
      · intro w hw
        simp only [RedisManager.set_volume] at hw
        split at hw
        · simp only [Option.some.injEq] at hw
          subst hw
          simpa using hcl
        · exact hok1.2 w hw
  | getVolume =>
      simpa only [Op.apply, QueueService.get_volume, hgs] using hok1
  | setLoopMode m =>
      simp only [Op.apply, QueueService.set_loop_mode, hgs]
      exact volumeOK_update_mem_db sys1 _ _ hok1 (by simpa using hvol)
        (by rw [volume_set_loop_mode])
  | cycleLoopMode =>
      simp only [Op.apply, QueueService.cycle_loop_mode, hgs]
      simp only [QueueService.set_loop_mode, QueueService.get_state, hmem1]
      exact volumeOK_update_mem_db sys1 _ _ hok1 (by simpa using hvol)
        (by rw [volume_set_loop_mode])
  | getLoopMode =>
      simpa only [Op.apply, QueueService.get_loop_mode, hgs] using hok1
  | setFilterOp f =>
      simp only [Op.apply, QueueService.set_filter, hgs]
      exact volumeOK_update_mem_db sys1 _ _ hok1 (by simpa using hvol)
        (by rw [volume_set_filter])
  | getFilterOp =>
      simpa only [Op.apply, QueueService.get_filter, hgs] using hok1
  | addSkipVote u =>
      simp only [Op.apply, QueueService.add_skip_vote, hgs]
      by_cases hu : u ∈ st.vote_skip_users
      · simpa only [if_pos hu] using hok1
      · simp only [if_neg hu]
        exact volumeOK_update_mem sys1 _ hok1 (by simpa using hvol)
  | getSkipVotes =>
      simpa only [Op.apply, QueueService.get_skip_votes, hgs] using hok1
  | resetSkipVotes =>
      simp only [Op.apply, QueueService.reset_skip_votes, GuildState.reset_vote_skip, hgs]
      exact volumeOK_update_mem sys1 _ hok1 (by simpa using hvol)
  | setSongStartTime t =>
      simp only [Op.apply, QueueService.set_song_start_time, hgs]
      exact volumeOK_update_mem sys1 _ hok1 (by simpa using hvol)
  | getSongStartTime =>
      simpa only [Op.apply, QueueService.get_song_start_time, hgs] using hok1
  | setNowPlaying m =>
      simp only [Op.apply, QueueService.set_now_playing_message, hgs]
      exact volumeOK_update_mem sys1 _ hok1 (by simpa using hvol)
  | getNowPlaying =>
      simpa only [Op.apply, QueueService.get_now_playing_message, hgs] using hok1
  | clearNowPlaying =>
      simp only [Op.apply, QueueService.clear_now_playing_message, hgs]
      exact volumeOK_update_mem sys1 _ hok1 (by simpa using hvol)
  | cleanupGuild =>
      simp only [Op.apply, QueueService.cleanup_guild]
      cases hsm : sys.mem <;>
        · refine ⟨by simp [hsm], ?_⟩
          intro v hv
          rw [settings_clear_queue] at hv
          exact h.2 v hv
  | set247 b =>
      simp only [Op.apply, QueueService.set_247_mode, hgs]
      exact volumeOK_update_mem_db sys1 _ _ hok1 (by simpa using hvol)
        (by rw [volume_set_247_mode])
  | get247 =>
      simp only [Op.apply, QueueService.get_247_mode, hgs]
      by_cases hl : st.loaded_247 = true
      · simpa only [if_pos hl] using hok1
      · simp only [if_neg hl]
        exact volumeOK_update_mem sys1 _ hok1 (by simpa using hvol)
  | setAutoplay b =>
      simp only [Op.apply, QueueService.set_autoplay, hgs]
      exact volumeOK_update_mem_db sys1 _ _ hok1 (by simpa using hvol)
        (by rw [volume_set_autoplay])
  | getAutoplay =>
      simp only [Op.apply, QueueService.get_autoplay, hgs]
      by_cases hl : st.loaded_autoplay = true
      · simpa only [if_pos hl] using hok1
      · simp only [if_neg hl]
        exact volumeOK_update_mem sys1 _ hok1 (by simpa using hvol)
  | setRequestChannel c =>
      simp only [Op.apply, QueueService.set_request_channel]
      refine ⟨h.1, ?_⟩
      intro v hv
      rw [volume_set_request_channel] at hv
      exact h.2 v hv
  | getRequestChannel =>
      simpa only [Op.apply, QueueService.get_request_channel] using h
  | savePlaylist n =>
      simp only [Op.apply, QueueService.save_playlist, hgs]
      refine ⟨hok1.1, ?_⟩
      intro v hv
      rw [settings_save_playlist] at hv
      exact hok1.2 v hv
  | loadPlaylist n =>
      simp only [Op.apply, QueueService.load_playlist]
      cases hlp : sys.db.load_playlist n with
      | none => simpa only [hlp] using h
      | some l =>
          simp only [hlp]
          by_cases hl : l ≠ []
          · simpa only [if_pos hl] using h
          · simpa only [if_neg hl] using h
  | deletePlaylist n =>
      simp only [Op.apply, QueueService.delete_playlist]
      refine ⟨h.1, ?_⟩
      intro v hv
      rw [settings_delete_playlist] at hv
      exact h.2 v hv
  | listPlaylists =>
      simpa only [Op.apply, QueueService.list_playlists] using h

/-- C8: starting from a fresh process over an empty store (connected or
not), after any sequence of Queue Manager operations — including
`set_volume` with arbitrary out-of-range values (which clamps) and the
lazy first-access rehydration performed by `get_state` — every in-memory
tenant volume and every persisted volume lies in `[0.0, 1.0]`. -/
theorem volume_invariant_all_ops (gid : Nat) (connected : Bool)
    (ops : List Op) : VolumeOK (runOps gid ops (initSystem connected)) := by
  have hinit : VolumeOK (initSystem connected) := by
    constructor
    · intro st hst
      simp [initSystem] at hst
    · intro v hv
      simp [initSystem] at hv
  suffices H : ∀ sys : QueueService, VolumeOK sys → VolumeOK (runOps gid ops sys) from
    H _ hinit
  induction ops with
  | nil =>
      intro sys hs
      simpa [runOps] using hs
  | cons op rest ih =>
      intro sys hs
      simp only [runOps, List.foldl_cons]
      exact ih _ (op_preserves_volumeOK gid op sys hs)

end MusicBot
